import Mathlib

set_option maxRecDepth 16384

/-!
Verification development for the `notify` CLI utility (single-file Go
program `main.go`).  The Go source is shallowly embedded below: the
argument-parsing loop of `main`, the helpers `parseBool`, `createIcon`,
`getIconPath` and `displayNotification`, and the post-parse validation
logic.  Go strings are modelled as Lean `String` (operating on `.data`,
the list of characters), Go `int` as `Int`, and the external effects of
`displayNotification` (file creation, the toast push) as explicit
oracle inputs.
-/

/- ### Go string primitives used by main.go -/

/-- Go string equality `s == t`. -/
def goEq (s t : String) : Bool := decide (s.data = t.data)

/-- Go `strings.HasPrefix(s, p)`. -/
def hasPrefixGo (s p : String) : Bool := decide (p.data <+: s.data)

/-- Go `strings.TrimPrefix(s, p)`: drops `p` from the front of `s` when it is
a prefix, otherwise returns `s` unchanged. -/
def trimPrefixGo (s p : String) : String :=
  if hasPrefixGo s p then String.mk (s.data.drop p.data.length) else s

/-- ASCII case mapping used to model Go `strings.ToLower` (the only inputs the
program compares after lowering are pure ASCII, where Go's Unicode mapping
agrees with this one). -/
def lowerCharGo (c : Char) : Char :=
  if decide (65 ≤ c.toNat ∧ c.toNat ≤ 90) then Char.ofNat (c.toNat + 32) else c

/-- Go `strings.ToLower` (ASCII fragment). -/
def toLowerGo (s : String) : String := String.mk (s.data.map lowerCharGo)

def upperCharGo (c : Char) : Char :=
  if decide (97 ≤ c.toNat ∧ c.toNat ≤ 122) then Char.ofNat (c.toNat - 32) else c

def isLetterGo (c : Char) : Bool :=
  decide ((65 ≤ c.toNat ∧ c.toNat ≤ 90) ∨ (97 ≤ c.toNat ∧ c.toNat ≤ 122))

/-- Helper for `titleGo`: the Boolean records whether the previous character
was a letter; a letter that starts a word is uppercased. -/
def titleGoAux : Bool → List Char → List Char
  | _, [] => []
  | prevLetter, c :: cs =>
    (if prevLetter then c else if isLetterGo c then upperCharGo c else c)
      :: titleGoAux (isLetterGo c) cs

/-- Go `strings.Title` (ASCII fragment): uppercases each letter that begins a
word.  In main.go it is only applied to one of the four lowercase category
tokens. -/
def titleGo (s : String) : String := String.mk (titleGoAux false s.data)

/- ### strconv.Atoi -/

def isDigitGo (c : Char) : Bool := decide (48 ≤ c.toNat ∧ c.toNat ≤ 57)

/-- Accumulating base-10 digit scan: `none` as soon as a non-digit appears. -/
def digitsValAux : Nat → List Char → Option Nat
  | acc, [] => some acc
  | acc, c :: cs =>
    if isDigitGo c then digitsValAux (acc * 10 + (c.toNat - 48)) cs else none

/-- Go `strconv.Atoi`: optional sign, a non-empty run of decimal digits, and
the value must fit in a 64-bit `int`; anything else is an error (`none`). -/
def atoi (s : String) : Option Int :=
  match s.data with
  | [] => none
  | c :: cs =>
    let signNeg : Bool := c == Char.ofNat 45
    let body : List Char :=
      if c == Char.ofNat 45 || c == Char.ofNat 43 then cs else c :: cs
    match body with
    | [] => none
    | _ :: _ =>
      match digitsValAux 0 body with
      | none => none
      | some n =>
        let v : Int := if signNeg then -(n : Int) else (n : Int)
        if decide (-(2 ^ 63) ≤ v ∧ v < 2 ^ 63) then some v else none

/- ### The argument parser (main.go lines 38-125) -/

/-- Go `parseBool` (main.go lines 170-172): case-insensitive comparison with
the literal string true. -/
def parseBool (s : String) : Bool := goEq (toLowerGo s) "true"

/-- The parser's mutable locals (main.go lines 42-46) in declaration order:
`notificationType`, `timeout`, `autoClose`, `customTitle`, `message`. -/
structure PState where
  notificationType : String
  timeout : Int
  autoClose : Bool
  customTitle : String
  message : String
deriving DecidableEq, Repr

/-- Initial values of the parser locals (main.go lines 42-46; `message` has
Go's zero value, the empty string). -/
def initState : PState :=
  { notificationType := "info", timeout := 5, autoClose := true,
    customTitle := "", message := "" }

/-- Which branch of the parse loop body fires for token index `i`.  The
constructors record the value consumed and, for the `--flag value` forms,
that a following token was consumed as well (`pair = true` means the index
advances by 2).  `oobError` marks an out-of-bounds token access; the theorem
for C10 proves it never occurs. -/
inductive StepKind where
  | finished
  | oobError
  | help
  | setType (v : String) (pair : Bool)
  | setTitle (v : String) (pair : Bool)
  | setTimeout (v : String) (pair : Bool)
  | setAutoClose (v : String) (pair : Bool)
  | setMessage (v : String)
  | skip
deriving DecidableEq, Repr

/-- Reads the following token for a `--flag value` form (the source only
reaches this under the guard `i+1 < len(args)`). -/
def pairVal (args : List String) (i : Nat) (mk : String → StepKind) : StepKind :=
  match args[i + 1]? with
  | some v => mk v
  | none => .oobError

/-- One iteration of the parse loop (main.go lines 50-125): the chain of
`if` statements in source order.  A `--flag value` branch is taken exactly
when the flag token matches and `i+1 < len(args)` holds; otherwise control
falls through to the later tests, ending with the positional-message test
(`!strings.HasPrefix(arg, "-")`) and the silent skip. -/
def classify (args : List String) (i : Nat) : StepKind :=
  match args[i]? with
  | none => .finished
  | some arg =>
    if goEq arg "--help" || goEq arg "-help" || goEq arg "-h" then .help
    else if hasPrefixGo arg "--type=" then .setType (trimPrefixGo arg "--type=") false
    else if (goEq arg "--type" || goEq arg "-type") && decide (i + 1 < args.length) then
      pairVal args i (fun v => .setType v true)
    else if hasPrefixGo arg "--title=" then .setTitle (trimPrefixGo arg "--title=") false
    else if (goEq arg "--title" || goEq arg "-title") && decide (i + 1 < args.length) then
      pairVal args i (fun v => .setTitle v true)
    else if hasPrefixGo arg "--timeout=" then .setTimeout (trimPrefixGo arg "--timeout=") false
    else if (goEq arg "--timeout" || goEq arg "-timeout") && decide (i + 1 < args.length) then
      pairVal args i (fun v => .setTimeout v true)
    else if hasPrefixGo arg "--autoclose=" then
      .setAutoClose (trimPrefixGo arg "--autoclose=") false
    else if (goEq arg "--autoclose" || goEq arg "-autoclose") && decide (i + 1 < args.length) then
      pairVal args i (fun v => .setAutoClose v true)
    else if !(hasPrefixGo arg "-") then .setMessage arg
    else .skip

/-- Result of the parse phase: `--help` short-circuits the loop (main.go
lines 53-56), otherwise the loop runs to completion with final locals. -/
inductive ParseOut where
  | help
  | done (st : PState)
deriving DecidableEq, Repr

/-- The parse loop, fuelled.  Each iteration advances the index by 1 or 2, so
fuel `len(args) - i` (plus an allowance of 0 for the exit check) always
suffices; with insufficient fuel, or on an out-of-bounds access, the result
is `none`.  The state updates mirror main.go: `--timeout` applies
`strconv.Atoi` and keeps the previous value on error (lines 86-102);
`--autoclose` applies `parseBool`; a non-dash token overwrites `message`
(line 119). -/
def parseLoop : Nat → List String → Nat → PState → Option ParseOut
  | 0, args, i, st => if args.length ≤ i then some (.done st) else none
  | fuel + 1, args, i, st =>
    match classify args i with
    | .finished => some (.done st)
    | .oobError => none
    | .help => some .help
    | .setType v pair =>
      parseLoop fuel args (i + if pair then 2 else 1) { st with notificationType := v }
    | .setTitle v pair =>
      parseLoop fuel args (i + if pair then 2 else 1) { st with customTitle := v }
    | .setTimeout v pair =>
      parseLoop fuel args (i + if pair then 2 else 1)
        (match atoi v with
         | some n => { st with timeout := n }
         | none => st)
    | .setAutoClose v pair =>
      parseLoop fuel args (i + if pair then 2 else 1) { st with autoClose := parseBool v }
    | .setMessage v => parseLoop fuel args (i + 1) { st with message := v }
    | .skip => parseLoop fuel args (i + 1) st

/-- The tokens the loop treats as the positional message (branch at main.go
lines 118-122), in the order they are consumed. -/
def posTokens : Nat → List String → Nat → List String
  | 0, _, _ => []
  | fuel + 1, args, i =>
    match classify args i with
    | .finished => []
    | .oobError => []
    | .help => []
    | .setType _ pair => posTokens fuel args (i + if pair then 2 else 1)
    | .setTitle _ pair => posTokens fuel args (i + if pair then 2 else 1)
    | .setTimeout _ pair => posTokens fuel args (i + if pair then 2 else 1)
    | .setAutoClose _ pair => posTokens fuel args (i + if pair then 2 else 1)
    | .setMessage v => v :: posTokens fuel args (i + 1)
    | .skip => posTokens fuel args (i + 1)

/-- Parsing a full argument vector from the defaults. -/
def parseArgs (args : List String) : Option ParseOut :=
  parseLoop (args.length + 1) args 0 initState

/- ### Post-parse validation and main's outcome (main.go lines 127-167) -/

/-- The validated request record (main.go lines 19-25, fields `Type`,
`Title`, `Message`, `Timeout`, `AutoClose`). -/
structure Notification where
  nType : String
  title : String
  message : String
  timeout : Int
  autoClose : Bool
deriving DecidableEq, Repr

/-- The slice `validTypes` (main.go line 134). -/
def validTypes : List String := ["success", "error", "info", "warning"]

/-- The membership loop over `validTypes` (main.go lines 135-141). -/
def isValidType (t : String) : Bool := validTypes.any (fun s => goEq t s)

/-- The usage text printed by `showHelp` (main.go lines 174-196). -/
def helpText : String :=
  "notify - A CLI notification utility\n\nUsage:\n  notify MESSAGE [OPTIONS]\n\nArguments:\n  MESSAGE             The notification message (positional argument)\n\nOptions:\n  --title TITLE       Custom title for the notification (default: based on type)\n  --type TYPE         Type of notification: success, error, info, warning (default: info)\n  --timeout SECONDS   Timeout in seconds (default: 5)\n  --autoclose BOOLEAN Auto close after timeout (default: true)\n  --help              Show this help message\n\nExamples:\n  notify \"Operation completed successfully\" --type success\n  notify \"An error occurred\" --type error --timeout 10\n  notify \"Build done\" --title \"My App\" --type success\n  notify \"Download started\" --title \"Downloader\" --type info --autoclose false\n"

/-- Observable outcome of `main` up to the dispatch call: the lines printed,
the exit code if the process terminates before dispatching, and the
`Notification` handed to `displayNotification` otherwise. -/
structure MainOut where
  printed : List String
  exitCode : Option Nat
  dispatched : Option Notification
deriving DecidableEq, Repr

/-- `main` after the parse loop (main.go lines 127-164): empty message →
print the requirement plus help and exit 1; invalid category → print the
formatted error and exit 1; otherwise derive the title (custom, or
`strings.Title` of the category) and dispatch.  The `none` parse case is
unreachable (see `parser_total_inbounds_spec`). -/
def runMain (args : List String) : MainOut :=
  match parseArgs args with
  | some .help => { printed := [helpText], exitCode := some 0, dispatched := none }
  | some (.done st) =>
    if st.message = "" then
      { printed := ["Message is required as a positional argument", helpText],
        exitCode := some 1, dispatched := none }
    else if isValidType st.notificationType = false then
      { printed := ["Invalid notification type: " ++ st.notificationType ++
          ". Valid types are: success, error, info, warning"],
        exitCode := some 1, dispatched := none }
    else
      { printed := [], exitCode := none,
        dispatched := some
          { nType := st.notificationType,
            title := if st.customTitle = "" then titleGo st.notificationType else st.customTitle,
            message := st.message, timeout := st.timeout, autoClose := st.autoClose } }
  | none => { printed := [], exitCode := none, dispatched := none }

/- ### Icon synthesis (main.go lines 27-36 and 198-248) -/

/-- One pixel, as stored by `image.RGBA.Set` with a `color.RGBA` value. -/
structure RGBA where
  r : Nat
  g : Nat
  b : Nat
  a : Nat
deriving DecidableEq, Repr

/-- An entry of the `iconData` map (main.go lines 28-36). -/
structure IconEntry where
  color : RGBA
  symbol : String
deriving DecidableEq, Repr

/-- The `iconData` map (main.go lines 28-36): Go map lookup by string
equality. -/
def iconLookup (k : String) : Option IconEntry :=
  if goEq k "success" then some { color := ⟨46, 204, 113, 255⟩, symbol := "✓" }
  else if goEq k "error" then some { color := ⟨231, 76, 60, 255⟩, symbol := "✗" }
  else if goEq k "info" then some { color := ⟨52, 152, 219, 255⟩, symbol := "ℹ" }
  else if goEq k "warning" then some { color := ⟨241, 196, 15, 255⟩, symbol := "⚠" }
  else none

/-- `createIcon`'s entry selection (main.go lines 200-203): a missing key
falls back to the `info` entry (`getD` of the zero value models Go's map
access, but the `info` key is always present). -/
def iconEntryFor (nType : String) : IconEntry :=
  match iconLookup nType with
  | some d => d
  | none => (iconLookup "info").getD { color := ⟨0, 0, 0, 0⟩, symbol := "" }

/-- `image.NewRGBA(image.Rect(0, 0, 64, 64))`: all pixels zero. -/
def newRGBA64 : Nat × Nat → RGBA := fun _ => ⟨0, 0, 0, 0⟩

/-- `img.Set(x, y, c)`. -/
def setPixel (img : Nat × Nat → RGBA) (x y : Nat) (c : RGBA) : Nat × Nat → RGBA :=
  fun p => if p = (x, y) then c else img p

/-- The per-pixel in/out decision of the scanline fill (main.go lines
215-226): `center = 64/2`, `radius = 64/2 - 4`, squared distance compared
with `radius*radius`; inside gets the category color, outside transparent. -/
def circlePixel (col : RGBA) (x y : Nat) : RGBA :=
  let center : Int := 64 / 2
  let radius : Int := 64 / 2 - 4
  let dx : Int := (x : Int) - center
  let dy : Int := (y : Int) - center
  if dx * dx + dy * dy ≤ radius * radius then col else ⟨0, 0, 0, 0⟩

/-- The inner `for x` loop of `createIcon` for one row `y`. -/
def drawRowGo (col : RGBA) (y : Nat) (img : Nat × Nat → RGBA) : Nat × Nat → RGBA :=
  (List.range 64).foldl (fun im x => setPixel im x y (circlePixel col x y)) img

/-- The raster built by `createIcon` (main.go lines 205-228): outer loop over
`y`, inner loop over `x`, each pixel set exactly once. -/
def createIconImage (nType : String) : Nat × Nat → RGBA :=
  (List.range 64).foldl (fun im y => drawRowGo (iconEntryFor nType).color y im) newRGBA64

/-- The category → RGBA table exactly as the specification states it. -/
def specColorOf (t : String) : RGBA :=
  if t = "success" then ⟨46, 204, 113, 255⟩
  else if t = "error" then ⟨231, 76, 60, 255⟩
  else if t = "info" then ⟨52, 152, 219, 255⟩
  else if t = "warning" then ⟨241, 196, 15, 255⟩
  else ⟨0, 0, 0, 0⟩

/- ### The dispatcher (main.go lines 260-310) -/

inductive ToastDuration where
  | short
  | long
deriving DecidableEq, Repr

inductive ToastAudio where
  | dflt
  | silent
deriving DecidableEq, Repr

/-- The fields of `toast.Notification` that main.go populates (lines
269-277). -/
structure Toast where
  appID : String
  title : String
  message : String
  icon : String
  duration : ToastDuration
  activationType : String
  activationArguments : String
  audio : ToastAudio
deriving DecidableEq, Repr

/-- The audio switch (main.go lines 284-289): `success`, `error`, `warning`
get `toast.Default`; the `default` case gets `toast.Silent`. -/
def selectAudio (t : String) : ToastAudio :=
  if goEq t "success" || goEq t "error" || goEq t "warning" then .dflt else .silent

/-- The toast value built by `displayNotification` (main.go lines 269-293):
struct literal with `Duration: toast.Short`, the audio switch, then
`Duration = toast.Long` when `!n.AutoClose`. -/
def buildToast (n : Notification) (iconPath : String) : Toast :=
  let t : Toast :=
    { appID := "Notify CLI", title := n.title, message := n.message, icon := iconPath,
      duration := .short, activationType := "protocol", activationArguments := "dismiss",
      audio := .silent }
  let t := { t with audio := selectAudio n.nType }
  if n.autoClose then t else { t with duration := .long }

/-- External effects of one `displayNotification` run: the outcome of
`getIconPath` (the written icon's path on success, `none` on any
create/encode failure), whether `notification.Push()` succeeds, and whether
`os.Remove` succeeds (its result is discarded by the source). -/
structure WorldOracle where
  iconResult : Option String
  pushOk : Bool
  removeOk : Bool
deriving DecidableEq, Repr

/-- Observable trace of `displayNotification`. -/
structure DispatchTrace where
  toast : Toast
  pushCalled : Bool
  removed : Option String
  errReturned : Bool
deriving DecidableEq, Repr

/-- `displayNotification` (main.go lines 260-310): icon failure degrades to
an empty icon path (lines 262-266); the toast is built and pushed; a push
error returns immediately (lines 296-299), skipping the cleanup; on success
the icon file, if any, is removed (lines 305-307), ignoring the removal's
own result.  The 500 ms grace sleep (line 302) has no observable effect in
this model. -/
def displayNotification (n : Notification) (w : WorldOracle) : DispatchTrace :=
  let iconPath := w.iconResult.getD ""
  let t := buildToast n iconPath
  if w.pushOk then
    { toast := t, pushCalled := true,
      removed := if iconPath ≠ "" then some iconPath else none,
      errReturned := false }
  else
    { toast := t, pushCalled := true, removed := none, errReturned := true }

/- ### Concrete sanity checks of the embedding -/

example : parseArgs ["hello"] = some (.done { initState with message := "hello" }) := by decide

example : parseArgs ["--type", "success", "hi"] =
    some (.done { initState with notificationType := "success", message := "hi" }) := by decide

example : parseArgs ["a", "b"] = some (.done { initState with message := "b" }) := by decide

example : parseArgs ["--timeout", "abc", "m"] =
    some (.done { initState with message := "m" }) := by decide

example : parseArgs ["--timeout=12", "m"] =
    some (.done { initState with timeout := 12, message := "m" }) := by decide

example : parseArgs ["--autoclose", "FALSE", "m"] =
    some (.done { initState with autoClose := false, message := "m" }) := by decide

example : parseArgs ["--autoclose", "TrUe", "m"] =
    some (.done { initState with autoClose := true, message := "m" }) := by decide

example : parseArgs ["--help"] = some .help := by decide

example : parseArgs ["--type"] = some (.done initState) := by decide

example : parseArgs ["--unknown", "m"] = some (.done { initState with message := "m" }) := by decide

example : atoi "7" = some 7 := by decide

example : atoi "abc" = none := by decide

example : atoi "-12" = some (-12) := by decide

example : atoi "" = none := by decide

example : atoi "+" = none := by decide

example : runMain [] =
    { printed := ["Message is required as a positional argument", helpText],
      exitCode := some 1, dispatched := none } := by decide

example : runMain ["--type", "bogus", "hi"] =
    { printed := ["Invalid notification type: bogus. Valid types are: success, error, info, warning"],
      exitCode := some 1, dispatched := none } := by decide

example : runMain ["hi", "--type", "success"] =
    { printed := [], exitCode := none,
      dispatched := some
        { nType := "success", title := "Success", message := "hi",
          timeout := 5, autoClose := true } } := by decide

example : (buildToast { nType := "info", title := "T", message := "m",
                        timeout := 9, autoClose := false } "p").duration = .long := by decide

example : (buildToast { nType := "info", title := "T", message := "m",
                        timeout := 9, autoClose := false } "p").audio = .silent := by decide

example : circlePixel ⟨46, 204, 113, 255⟩ 32 32 = ⟨46, 204, 113, 255⟩ := by decide

example : circlePixel ⟨46, 204, 113, 255⟩ 0 0 = ⟨0, 0, 0, 0⟩ := by decide

example : (iconEntryFor "bogus").color = ⟨52, 152, 219, 255⟩ := by decide

/- ### Dispatcher lemmas -/

lemma buildToast_audio (n : Notification) (icon : String) :
    (buildToast n icon).audio = selectAudio n.nType := by
  unfold buildToast
  by_cases h : n.autoClose <;> simp [h]

lemma buildToast_duration (n : Notification) (icon : String) :
    (buildToast n icon).duration = if n.autoClose then ToastDuration.short else .long := by
  unfold buildToast
  by_cases h : n.autoClose <;> simp [h]

lemma buildToast_icon (n : Notification) (icon : String) :
    (buildToast n icon).icon = icon := by
  unfold buildToast
  by_cases h : n.autoClose <;> simp [h]

lemma goEq_iff (s t : String) : goEq s t = true ↔ s = t := by
  unfold goEq
  rw [decide_eq_true_iff]
  constructor
  · intro h
    cases s; cases t; exact congrArg String.mk h
  · intro h
    rw [h]

/-- C5: for every validated request dispatched, the audio cue is a function
of the category alone: `success`, `error` and `warning` select the default
notification sound and `info` selects silence. -/
theorem audio_by_category_spec (n : Notification) (icon : String) :
    ((n.nType = "success" ∨ n.nType = "error" ∨ n.nType = "warning") →
      (buildToast n icon).audio = .dflt)
    ∧ (n.nType = "info" → (buildToast n icon).audio = .silent)
    ∧ (∀ (m : Notification) (icon2 : String), m.nType = n.nType →
        (buildToast m icon2).audio = (buildToast n icon).audio) := by
  refine ⟨?_, ?_, ?_⟩
  · intro h
    rw [buildToast_audio]
    unfold selectAudio
    rcases h with h | h | h <;> rw [h] <;> decide
  · intro h
    rw [buildToast_audio, h]
    decide
  · intro m icon2 h
    rw [buildToast_audio, buildToast_audio, h]

theorem audio_by_category_spec_witness :
    ((buildToast { nType := "success", title := "Success", message := "hi",
                   timeout := 5, autoClose := true } "p").audio = .dflt)
    ∧ ((buildToast { nType := "info", title := "Info", message := "hi",
                     timeout := 5, autoClose := true } "p").audio = .silent) :=
  ⟨(audio_by_category_spec _ "p").1 (Or.inl rfl),
   (audio_by_category_spec _ "p").2.1 rfl⟩

/-- C6: the dispatched duration class is `long` exactly when `autoClose` is
false and `short` otherwise, and the stored `timeout` value has no effect on
it. -/
theorem duration_by_autoclose_spec (n : Notification) (icon : String) :
    ((buildToast n icon).duration = if n.autoClose then ToastDuration.short else .long)
    ∧ (∀ t : Int, (buildToast { n with timeout := t } icon).duration =
        (buildToast n icon).duration) := by
  refine ⟨buildToast_duration n icon, ?_⟩
  intro t
  rw [buildToast_duration, buildToast_duration]

/-- C8 counterexample: a run where the icon file was created and the push
call fails; contrary to the claim, the icon is not removed (the early
`return err` at main.go line 298 precedes the cleanup at line 305). -/
theorem icon_cleanup_counterexample :
    (displayNotification
        { nType := "success", title := "Success", message := "hi",
          timeout := 5, autoClose := true }
        { iconResult := some "icon.png", pushOk := false, removeOk := true }).removed = none
    ∧ (displayNotification
        { nType := "success", title := "Success", message := "hi",
          timeout := 5, autoClose := true }
        { iconResult := some "icon.png", pushOk := false, removeOk := true }).pushCalled
        = true := by
  constructor <;> rfl

/-- C8 (amended): when an icon file was created, it is deleted immediately
after the dispatch call returns successfully; when the dispatch call fails,
the function returns the error without deleting the icon; and the outcome of
the deletion itself never affects the result. -/
theorem icon_cleanup_spec (n : Notification) (w : WorldOracle) (p : String)
    (hi : w.iconResult = some p) (hp : p ≠ "") :
    ((displayNotification n w).removed = if w.pushOk then some p else none)
    ∧ ((displayNotification n w).errReturned = !w.pushOk)
    ∧ (∀ b : Bool, displayNotification n { w with removeOk := b } = displayNotification n w) := by
  refine ⟨?_, ?_, fun b => rfl⟩ <;>
    · unfold displayNotification
      rw [hi]
      by_cases hpu : w.pushOk <;> simp [hpu, hp]

theorem icon_cleanup_spec_witness :
    ((displayNotification
        { nType := "success", title := "Success", message := "hi",
          timeout := 5, autoClose := true }
        { iconResult := some "icon.png", pushOk := true, removeOk := true }).removed
      = if true then some "icon.png" else none) :=
  (icon_cleanup_spec _ _ "icon.png" rfl (by decide)).1

/-- C9: when icon synthesis fails, the dispatcher proceeds with an empty
icon path, still issues the push, and the returned error depends only on the
push outcome (icon failure is never fatal). -/
theorem icon_failure_nonfatal_spec (n : Notification) (w : WorldOracle)
    (hi : w.iconResult = none) :
    ((displayNotification n w).toast.icon = "")
    ∧ ((displayNotification n w).pushCalled = true)
    ∧ ((displayNotification n w).errReturned = !w.pushOk) := by
  refine ⟨?_, ?_, ?_⟩ <;>
    · unfold displayNotification
      rw [hi]
      by_cases hpu : w.pushOk <;> simp [hpu, buildToast_icon]

theorem icon_failure_nonfatal_spec_witness :
    ((displayNotification
        { nType := "error", title := "Error", message := "m",
          timeout := 5, autoClose := true }
        { iconResult := none, pushOk := true, removeOk := true }).toast.icon = "")
    ∧ ((displayNotification
        { nType := "error", title := "Error", message := "m",
          timeout := 5, autoClose := true }
        { iconResult := none, pushOk := true, removeOk := true }).pushCalled = true) :=
  ⟨(icon_failure_nonfatal_spec _ _ rfl).1, (icon_failure_nonfatal_spec _ _ rfl).2.1⟩

/- ### Validation lemmas -/

lemma isValidType_iff (t : String) : isValidType t = true ↔ t ∈ validTypes := by
  unfold isValidType
  rw [List.any_eq_true]
  constructor
  · rintro ⟨s, hs, he⟩
    rw [(goEq_iff t s).mp he]
    exact hs
  · intro h
    exact ⟨t, h, (goEq_iff t t).mpr rfl⟩

/-- C7: an argument vector that parses (without requesting help) to an empty
message, or to a category outside the four valid ones, makes the process
print a human-readable error and exit with code 1; the invalid-category
message names the offending type and lists the four valid options. -/
theorem validation_errors_spec (args : List String) (st : PState)
    (h : parseArgs args = some (.done st)) :
    (st.message = "" →
      runMain args =
        { printed := ["Message is required as a positional argument", helpText],
          exitCode := some 1, dispatched := none })
    ∧ (st.message ≠ "" → st.notificationType ∉ validTypes →
      runMain args =
        { printed := ["Invalid notification type: " ++ st.notificationType ++
            ". Valid types are: success, error, info, warning"],
          exitCode := some 1, dispatched := none }) := by
  constructor
  · intro hm
    unfold runMain
    rw [h]
    simp [hm]
  · intro hm hv
    have hb : isValidType st.notificationType = false := by
      rw [Bool.eq_false_iff]
      intro ht
      exact hv ((isValidType_iff st.notificationType).mp ht)
    unfold runMain
    rw [h]
    simp [hm, hb]

theorem validation_errors_spec_witness :
    runMain [] =
      { printed := ["Message is required as a positional argument", helpText],
        exitCode := some 1, dispatched := none }
    ∧ runMain ["--type", "bogus", "hi"] =
      { printed := ["Invalid notification type: " ++ "bogus" ++
          ". Valid types are: success, error, info, warning"],
        exitCode := some 1, dispatched := none } :=
  ⟨(validation_errors_spec [] initState rfl).1 rfl,
   (validation_errors_spec ["--type", "bogus", "hi"]
      { initState with notificationType := "bogus", message := "hi" }
      (by decide)).2 (by decide) (by decide)⟩

/- ### Parser totality (C10) -/

lemma pairVal_ne_oob {args : List String} {i : Nat} (mk : String → StepKind)
    (h : i + 1 < args.length) (hmk : ∀ v, mk v ≠ .oobError) :
    pairVal args i mk ≠ .oobError := by
  unfold pairVal
  rw [List.getElem?_eq_getElem h]
  exact hmk _

/-- The loop body never reads out of bounds: `args[i+1]` is only consulted
under the guard `i+1 < len(args)`. -/
lemma classify_ne_oob (args : List String) (i : Nat) : classify args i ≠ .oobError := by
  have hp : ∀ (mk : String → StepKind) (c : Bool),
      (c && decide (i + 1 < args.length)) = true → (∀ v, mk v ≠ .oobError) →
      pairVal args i mk ≠ .oobError := by
    intro mk c hc hmk
    simp only [Bool.and_eq_true, decide_eq_true_eq] at hc
    exact pairVal_ne_oob _ hc.2 hmk
  unfold classify
  split
  · exact fun h => StepKind.noConfusion h
  · rename_i arg heq
    by_cases h1 : (goEq arg "--help" || goEq arg "-help" || goEq arg "-h") = true
    · rw [if_pos h1]
      exact fun h => StepKind.noConfusion h
    · rw [if_neg h1]
      by_cases h2 : hasPrefixGo arg "--type=" = true
      · rw [if_pos h2]
        exact fun h => StepKind.noConfusion h
      · rw [if_neg h2]
        by_cases h3 : ((goEq arg "--type" || goEq arg "-type")
            && decide (i + 1 < args.length)) = true
        · rw [if_pos h3]
          exact hp _ _ h3 (fun v h => StepKind.noConfusion h)
        · rw [if_neg h3]
          by_cases h4 : hasPrefixGo arg "--title=" = true
          · rw [if_pos h4]
            exact fun h => StepKind.noConfusion h
          · rw [if_neg h4]
            by_cases h5 : ((goEq arg "--title" || goEq arg "-title")
                && decide (i + 1 < args.length)) = true
            · rw [if_pos h5]
              exact hp _ _ h5 (fun v h => StepKind.noConfusion h)
            · rw [if_neg h5]
              by_cases h6 : hasPrefixGo arg "--timeout=" = true
              · rw [if_pos h6]
                exact fun h => StepKind.noConfusion h
              · rw [if_neg h6]
                by_cases h7 : ((goEq arg "--timeout" || goEq arg "-timeout")
                    && decide (i + 1 < args.length)) = true
                · rw [if_pos h7]
                  exact hp _ _ h7 (fun v h => StepKind.noConfusion h)
                · rw [if_neg h7]
                  by_cases h8 : hasPrefixGo arg "--autoclose=" = true
                  · rw [if_pos h8]
                    exact fun h => StepKind.noConfusion h
                  · rw [if_neg h8]
                    by_cases h9 : ((goEq arg "--autoclose" || goEq arg "-autoclose")
                        && decide (i + 1 < args.length)) = true
                    · rw [if_pos h9]
                      exact hp _ _ h9 (fun v h => StepKind.noConfusion h)
                    · rw [if_neg h9]
                      by_cases h10 : (!hasPrefixGo arg "-") = true
                      · rw [if_pos h10]
                        exact fun h => StepKind.noConfusion h
                      · rw [if_neg h10]
                        exact fun h => StepKind.noConfusion h

/-- C10: the parse loop is total and in-bounds: fuel `len(args) - i` always
suffices and no out-of-bounds access occurs (`isSome`), and a value-taking
flag that appears as the final token is silently skipped, leaving the whole
parser state unchanged. -/
theorem parser_total_inbounds_spec (args : List String) (fuel i : Nat) (st : PState)
    (h : args.length ≤ i + fuel) :
    ((parseLoop fuel args i st).isSome = true)
    ∧ (∀ f ∈ (["--type", "-type", "--title", "-title", "--timeout", "-timeout",
        "--autoclose", "-autoclose"] : List String), ∀ st0 : PState,
        parseLoop 2 [f] 0 st0 = some (.done st0)) := by
  constructor
  · induction fuel generalizing i st with
    | zero =>
      simp only [parseLoop]
      rw [if_pos (by omega)]
      rfl
    | succ fuel ih =>
      simp only [parseLoop]
      cases hc : classify args i with
      | finished => rfl
      | oobError => exact absurd hc (classify_ne_oob args i)
      | help => rfl
      | setType v pair =>
        have hd : 1 ≤ (if pair then 2 else 1 : Nat) := by cases pair <;> decide
        exact ih _ _ (by omega)
      | setTitle v pair =>
        have hd : 1 ≤ (if pair then 2 else 1 : Nat) := by cases pair <;> decide
        exact ih _ _ (by omega)
      | setTimeout v pair =>
        have hd : 1 ≤ (if pair then 2 else 1 : Nat) := by cases pair <;> decide
        exact ih _ _ (by omega)
      | setAutoClose v pair =>
        have hd : 1 ≤ (if pair then 2 else 1 : Nat) := by cases pair <;> decide
        exact ih _ _ (by omega)
      | setMessage v => exact ih _ _ (by omega)
      | skip => exact ih _ _ (by omega)
  · intro f hf st0
    simp only [List.mem_cons, List.not_mem_nil, or_false] at hf
    rcases hf with rfl | rfl | rfl | rfl | rfl | rfl | rfl | rfl <;> rfl

theorem parser_total_inbounds_spec_witness :
    ((parseLoop 2 ["--type"] 0 initState).isSome = true)
    ∧ parseLoop 2 ["--type"] 0 initState = some (.done initState) :=
  ⟨(parser_total_inbounds_spec ["--type"] 2 0 initState (by decide)).1,
   (parser_total_inbounds_spec ["--type"] 2 0 initState (by decide)).2
      "--type" (by decide) initState⟩

/- ### The message token (C1) -/

/-- C1 counterexample: with the argument vector `["a", "b"]`, both tokens
are unconsumed non-dash tokens; the first one is `a`, but the parser's
resulting message is `b` (main.go line 119 overwrites `message` on every
match), so the first-match-wins claim fails. -/
theorem message_first_token_counterexample :
    (posTokens 3 ["a", "b"] 0).head? = some "a"
    ∧ parseArgs ["a", "b"] = some (.done { initState with message := "b" })
    ∧ ("b" : String) ≠ "a" :=
  ⟨by decide, by decide, by decide⟩

/-- C1 (amended): the resulting message equals the LAST token that is not
consumed as a flag value and does not start with a dash (last-match-wins);
when there is no such token the message keeps its prior value. -/
theorem parse_message_eq_last_positional (fuel : Nat) (args : List String) (i : Nat)
    (st st2 : PState) (h : parseLoop fuel args i st = some (.done st2)) :
    st2.message = (posTokens fuel args i).getLastD st.message := by
  induction fuel generalizing i st with
  | zero =>
    simp only [parseLoop] at h
    split at h
    · simp only [Option.some.injEq, ParseOut.done.injEq] at h
      subst h
      simp [posTokens]
    · exact absurd h (by simp)
  | succ fuel ih =>
    cases hc : classify args i with
    | finished =>
      simp only [parseLoop, hc, Option.some.injEq, ParseOut.done.injEq] at h
      subst h
      simp [posTokens, hc]
    | oobError =>
      simp only [parseLoop, hc] at h
      exact Option.noConfusion h
    | help =>
      simp only [parseLoop, hc, Option.some.injEq] at h
      exact ParseOut.noConfusion h
    | setType v pair =>
      simp only [parseLoop, hc] at h
      simp only [posTokens, hc]
      exact ih _ { st with notificationType := v } h
    | setTitle v pair =>
      simp only [parseLoop, hc] at h
      simp only [posTokens, hc]
      exact ih _ { st with customTitle := v } h
    | setTimeout v pair =>
      cases hv : atoi v with
      | none =>
        simp only [parseLoop, hc, hv] at h
        simp only [posTokens, hc]
        exact ih _ st h
      | some n =>
        simp only [parseLoop, hc, hv] at h
        simp only [posTokens, hc]
        exact ih _ { st with timeout := n } h
    | setAutoClose v pair =>
      simp only [parseLoop, hc] at h
      simp only [posTokens, hc]
      exact ih _ { st with autoClose := parseBool v } h
    | setMessage v =>
      simp only [parseLoop, hc] at h
      simp only [posTokens, hc]
      rw [List.getLastD_cons]
      exact ih _ { st with message := v } h
    | skip =>
      simp only [parseLoop, hc] at h
      simp only [posTokens, hc]
      exact ih _ st h

theorem parse_message_eq_last_positional_witness :
    ({ initState with message := "b" } : PState).message
      = (posTokens 3 ["a", "b"] 0).getLastD initState.message :=
  parse_message_eq_last_positional 3 ["a", "b"] 0 initState
    { initState with message := "b" } (by decide)

/- ### Symbolic evaluation of flag=value tokens (C3, C4) -/

lemma dataAppend (s t : String) : (s ++ t).data = s.data ++ t.data := by
  cases s; cases t; rfl

/-- A token of the form `a ++ v` is not Go-equal to `c` when `a` and `c`
differ at an index inside `a`. -/
lemma goEq_append_ne (a c v : String) (i : Nat) (hia : i < a.data.length)
    (hne : a.data[i]? ≠ c.data[i]?) : goEq (a ++ v) c = false := by
  unfold goEq
  apply decide_eq_false
  intro h
  apply hne
  rw [← h, dataAppend, List.getElem?_append, if_pos hia]

/-- A token of the form `a ++ v` does not have prefix `p` when `a` and `p`
differ at an index inside both. -/
lemma hasPrefixGo_append_ne (a p v : String) (i : Nat) (hia : i < a.data.length)
    (hip : i < p.data.length) (hne : a.data[i]? ≠ p.data[i]?) :
    hasPrefixGo (a ++ v) p = false := by
  unfold hasPrefixGo
  apply decide_eq_false
  rintro ⟨t, ht⟩
  apply hne
  have h1 : (p.data ++ t)[i]? = p.data[i]? := by
    rw [List.getElem?_append, if_pos hip]
  have h2 : (a ++ v).data[i]? = a.data[i]? := by
    rw [dataAppend, List.getElem?_append, if_pos hia]
  rw [← h2, ← ht, h1]

lemma hasPrefixGo_append (p v : String) : hasPrefixGo (p ++ v) p = true := by
  unfold hasPrefixGo
  exact decide_eq_true ⟨v.data, (dataAppend p v).symm⟩

lemma trimPrefixGo_append (p v : String) : trimPrefixGo (p ++ v) p = v := by
  unfold trimPrefixGo
  rw [if_pos (hasPrefixGo_append p v), dataAppend, List.drop_left]

/-- A token `--timeout=<v>` always reaches the `--timeout=` branch of the
loop body, whatever `v` is. -/
lemma classify_timeoutEq (v : String) :
    classify ["--timeout=" ++ v] 0 = .setTimeout v false := by
  have e1 : goEq ("--timeout=" ++ v) "--help" = false :=
    goEq_append_ne _ _ _ 2 (by decide) (by decide)
  have e2 : goEq ("--timeout=" ++ v) "-help" = false :=
    goEq_append_ne _ _ _ 1 (by decide) (by decide)
  have e3 : goEq ("--timeout=" ++ v) "-h" = false :=
    goEq_append_ne _ _ _ 1 (by decide) (by decide)
  have e4 : hasPrefixGo ("--timeout=" ++ v) "--type=" = false :=
    hasPrefixGo_append_ne _ _ _ 3 (by decide) (by decide) (by decide)
  have e5 : goEq ("--timeout=" ++ v) "--type" = false :=
    goEq_append_ne _ _ _ 3 (by decide) (by decide)
  have e6 : goEq ("--timeout=" ++ v) "-type" = false :=
    goEq_append_ne _ _ _ 1 (by decide) (by decide)
  have e7 : hasPrefixGo ("--timeout=" ++ v) "--title=" = false :=
    hasPrefixGo_append_ne _ _ _ 4 (by decide) (by decide) (by decide)
  have e8 : goEq ("--timeout=" ++ v) "--title" = false :=
    goEq_append_ne _ _ _ 4 (by decide) (by decide)
  have e9 : goEq ("--timeout=" ++ v) "-title" = false :=
    goEq_append_ne _ _ _ 1 (by decide) (by decide)
  have e10 : hasPrefixGo ("--timeout=" ++ v) "--timeout=" = true :=
    hasPrefixGo_append _ _
  unfold classify
  simp [e1, e2, e3, e4, e5, e6, e7, e8, e9, e10, trimPrefixGo_append]

/-- A token `--autoclose=<v>` always reaches the `--autoclose=` branch of
the loop body, whatever `v` is. -/
lemma classify_autocloseEq (v : String) :
    classify ["--autoclose=" ++ v] 0 = .setAutoClose v false := by
  have e1 : goEq ("--autoclose=" ++ v) "--help" = false :=
    goEq_append_ne _ _ _ 2 (by decide) (by decide)
  have e2 : goEq ("--autoclose=" ++ v) "-help" = false :=
    goEq_append_ne _ _ _ 1 (by decide) (by decide)
  have e3 : goEq ("--autoclose=" ++ v) "-h" = false :=
    goEq_append_ne _ _ _ 1 (by decide) (by decide)
  have e4 : hasPrefixGo ("--autoclose=" ++ v) "--type=" = false :=
    hasPrefixGo_append_ne _ _ _ 2 (by decide) (by decide) (by decide)
  have e5 : goEq ("--autoclose=" ++ v) "--type" = false :=
    goEq_append_ne _ _ _ 2 (by decide) (by decide)
  have e6 : goEq ("--autoclose=" ++ v) "-type" = false :=
    goEq_append_ne _ _ _ 1 (by decide) (by decide)
  have e7 : hasPrefixGo ("--autoclose=" ++ v) "--title=" = false :=
    hasPrefixGo_append_ne _ _ _ 2 (by decide) (by decide) (by decide)
  have e8 : goEq ("--autoclose=" ++ v) "--title" = false :=
    goEq_append_ne _ _ _ 2 (by decide) (by decide)
  have e9 : goEq ("--autoclose=" ++ v) "-title" = false :=
    goEq_append_ne _ _ _ 1 (by decide) (by decide)
  have e10 : hasPrefixGo ("--autoclose=" ++ v) "--timeout=" = false :=
    hasPrefixGo_append_ne _ _ _ 2 (by decide) (by decide) (by decide)
  have e11 : goEq ("--autoclose=" ++ v) "--timeout" = false :=
    goEq_append_ne _ _ _ 2 (by decide) (by decide)
  have e12 : goEq ("--autoclose=" ++ v) "-timeout" = false :=
    goEq_append_ne _ _ _ 1 (by decide) (by decide)
  have e13 : hasPrefixGo ("--autoclose=" ++ v) "--autoclose=" = true :=
    hasPrefixGo_append _ _
  unfold classify
  simp [e1, e2, e3, e4, e5, e6, e7, e8, e9, e10, e11, e12, e13, trimPrefixGo_append]

/-- One-step unfolding equation for the parse loop. -/
lemma parseLoop_succ (fuel : Nat) (args : List String) (i : Nat) (st : PState) :
    parseLoop (fuel + 1) args i st =
      match classify args i with
      | .finished => some (.done st)
      | .oobError => none
      | .help => some .help
      | .setType v pair =>
        parseLoop fuel args (i + if pair then 2 else 1) { st with notificationType := v }
      | .setTitle v pair =>
        parseLoop fuel args (i + if pair then 2 else 1) { st with customTitle := v }
      | .setTimeout v pair =>
        parseLoop fuel args (i + if pair then 2 else 1)
          (match atoi v with
           | some n => { st with timeout := n }
           | none => st)
      | .setAutoClose v pair =>
        parseLoop fuel args (i + if pair then 2 else 1) { st with autoClose := parseBool v }
      | .setMessage v => parseLoop fuel args (i + 1) { st with message := v }
      | .skip => parseLoop fuel args (i + 1) st := rfl

/-- C3: for every string `v` supplied as the value of `--autoclose`,
`-autoclose` or `--autoclose=`, the resulting `autoClose` field is
`parseBool v`, and `parseBool v` is true exactly when `v` equals the string
true under case-insensitive comparison. -/
theorem autoclose_parse_spec (st : PState) (v : String) :
    parseLoop 3 ["--autoclose", v] 0 st = some (.done { st with autoClose := parseBool v })
    ∧ parseLoop 3 ["-autoclose", v] 0 st = some (.done { st with autoClose := parseBool v })
    ∧ parseLoop 2 ["--autoclose=" ++ v] 0 st = some (.done { st with autoClose := parseBool v })
    ∧ (parseBool v = true ↔ toLowerGo v = toLowerGo "true") := by
  refine ⟨rfl, rfl, ?_, ?_⟩
  · rw [show (2 : Nat) = 1 + 1 from rfl, parseLoop_succ, classify_autocloseEq]
    rfl
  · unfold parseBool
    rw [show toLowerGo "true" = "true" from by decide]
    exact goEq_iff _ _

theorem autoclose_parse_spec_witness :
    parseLoop 3 ["--autoclose", "False"] 0 initState
      = some (.done { initState with autoClose := parseBool "False" })
    ∧ (parseBool "TrUe" = true ↔ toLowerGo "TrUe" = toLowerGo "true") :=
  ⟨(autoclose_parse_spec initState "False").1,
   (autoclose_parse_spec initState "TrUe").2.2.2⟩

/-- C4: a `--timeout` / `-timeout` / `--timeout=` value that does not parse
as an integer raises no error and leaves the `timeout` field at its
previously-set value (whose default is 5); a value that parses replaces
it. -/
theorem timeout_malformed_retained_spec (st : PState) (v : String) :
    (atoi v = none →
      parseLoop 3 ["--timeout", v] 0 st = some (.done st)
      ∧ parseLoop 3 ["-timeout", v] 0 st = some (.done st)
      ∧ parseLoop 2 ["--timeout=" ++ v] 0 st = some (.done st))
    ∧ (∀ n : Int, atoi v = some n →
      parseLoop 3 ["--timeout", v] 0 st = some (.done { st with timeout := n })
      ∧ parseLoop 2 ["--timeout=" ++ v] 0 st = some (.done { st with timeout := n }))
    ∧ initState.timeout = 5 := by
  refine ⟨?_, ?_, rfl⟩
  · intro h
    refine ⟨?_, ?_, ?_⟩
    · show parseLoop 2 ["--timeout", v] 2
        (match atoi v with
         | some n => { st with timeout := n }
         | none => st) = some (.done st)
      simp only [h]
      rfl
    · show parseLoop 2 ["-timeout", v] 2
        (match atoi v with
         | some n => { st with timeout := n }
         | none => st) = some (.done st)
      simp only [h]
      rfl
    · rw [show (2 : Nat) = 1 + 1 from rfl, parseLoop_succ, classify_timeoutEq]
      show parseLoop 1 ["--timeout=" ++ v] 1
        (match atoi v with
         | some n => { st with timeout := n }
         | none => st) = some (.done st)
      simp only [h]
      rfl
  · intro n h
    refine ⟨?_, ?_⟩
    · show parseLoop 2 ["--timeout", v] 2
        (match atoi v with
         | some m => { st with timeout := m }
         | none => st) = some (.done { st with timeout := n })
      simp only [h]
      rfl
    · rw [show (2 : Nat) = 1 + 1 from rfl, parseLoop_succ, classify_timeoutEq]
      show parseLoop 1 ["--timeout=" ++ v] 1
        (match atoi v with
         | some m => { st with timeout := m }
         | none => st) = some (.done { st with timeout := n })
      simp only [h]
      rfl

theorem timeout_malformed_retained_spec_witness :
    parseLoop 3 ["--timeout", "abc"] 0 initState = some (.done initState)
    ∧ parseLoop 3 ["--timeout", "7"] 0 initState
        = some (.done { initState with timeout := 7 }) :=
  ⟨((timeout_malformed_retained_spec initState "abc").1 (by decide)).1,
   ((timeout_malformed_retained_spec initState "7").2.1 7 (by decide)).1⟩

/- ### Icon raster evaluation (C2) -/

/-- Evaluating the inner `for x` loop: row `y` holds the circle-fill values
for all columns below `n`; every other pixel keeps its previous value. -/
lemma foldl_row_eval (col : RGBA) (y n : Nat) (img : Nat × Nat → RGBA) (a b : Nat) :
    ((List.range n).foldl (fun im x => setPixel im x y (circlePixel col x y)) img) (a, b)
      = if b = y ∧ a < n then circlePixel col a y else img (a, b) := by
  induction n with
  | zero => simp
  | succ n ih =>
    rw [List.range_succ, List.foldl_append]
    simp only [List.foldl_cons, List.foldl_nil]
    show (if (a, b) = (n, y) then circlePixel col n y
          else ((List.range n).foldl (fun im x => setPixel im x y (circlePixel col x y)) img)
            (a, b)) = _
    by_cases hq : (a, b) = (n, y)
    · rw [if_pos hq]
      obtain ⟨h1, h2⟩ := Prod.mk.injEq .. ▸ hq
      subst h1
      subst h2
      rw [if_pos ⟨rfl, by omega⟩]
    · rw [if_neg hq, ih]
      by_cases h2 : b = y
      · by_cases h1 : a < n
        · rw [if_pos ⟨h2, h1⟩, if_pos ⟨h2, by omega⟩]
        · have h1b : ¬ a < n + 1 := by
            intro hlt
            have ha : a = n := by omega
            subst ha
            subst h2
            exact hq rfl
          rw [if_neg (fun hc => h1 hc.2), if_neg (fun hc => h1b hc.2)]
      · rw [if_neg (fun hc => h2 hc.1), if_neg (fun hc => h2 hc.1)]

/-- Evaluating the outer `for y` loop: after `n` rows, every pixel with
`y < n`, `x < 64` holds the circle-fill value; the rest is still the zero
initialisation of `image.NewRGBA`. -/
lemma foldl_grid_eval (col : RGBA) (n : Nat) (a b : Nat) :
    ((List.range n).foldl (fun im y => drawRowGo col y im) newRGBA64) (a, b)
      = if b < n ∧ a < 64 then circlePixel col a b else ⟨0, 0, 0, 0⟩ := by
  induction n with
  | zero => simp [newRGBA64]
  | succ n ih =>
    rw [List.range_succ, List.foldl_append]
    simp only [List.foldl_cons, List.foldl_nil]
    show (List.range 64).foldl (fun im x => setPixel im x n (circlePixel col x n))
        ((List.range n).foldl (fun im y => drawRowGo col y im) newRGBA64) (a, b) = _
    rw [foldl_row_eval, ih]
    by_cases h2 : b = n
    · subst h2
      by_cases h1 : a < 64
      · rw [if_pos ⟨rfl, h1⟩, if_pos ⟨by omega, h1⟩]
      · rw [if_neg (fun hc => h1 hc.2), if_neg (fun hc => (by omega : ¬ b < b) hc.1),
          if_neg (fun hc => h1 hc.2)]
    · rw [if_neg (fun hc => h2 hc.1)]
      by_cases h1 : b < n ∧ a < 64
      · rw [if_pos h1, if_pos ⟨by omega, h1.2⟩]
      · rw [if_neg h1, if_neg (fun hc => h1 ⟨by omega, hc.2⟩)]

/-- In-range pixels of the synthesized raster are exactly the circle-fill
values. -/
lemma createIconImage_eval (t : String) (x y : Nat) (hx : x < 64) (hy : y < 64) :
    createIconImage t (x, y) = circlePixel (iconEntryFor t).color x y := by
  unfold createIconImage
  rw [foldl_grid_eval, if_pos ⟨hy, hx⟩]

/-- The circle-fill decision with the source's `center` and `radius`
evaluated (`64/2 = 32`, `64/2 - 4 = 28`). -/
lemma circlePixel_eq (col : RGBA) (x y : Nat) :
    circlePixel col x y =
      if ((x : Int) - 32) * ((x : Int) - 32) + ((y : Int) - 32) * ((y : Int) - 32) ≤ 28 * 28
      then col else ⟨0, 0, 0, 0⟩ := rfl

/-- C2: for each of the four categories, every pixel of the 64×64 raster
whose squared distance from the center is at most 28² has exactly the
category's specified opaque color, every other pixel is fully transparent,
and an unknown category yields the same raster as `info`. -/
theorem icon_raster_spec (t : String) (x y : Nat) (hx : x < 64) (hy : y < 64) :
    (t ∈ validTypes →
      createIconImage t (x, y) =
        if ((x : Int) - 32) * ((x : Int) - 32) + ((y : Int) - 32) * ((y : Int) - 32) ≤ 28 * 28
        then specColorOf t else ⟨0, 0, 0, 0⟩)
    ∧ (t ∈ validTypes → (specColorOf t).a = 255)
    ∧ (iconLookup t = none → ∀ q : Nat × Nat, createIconImage t q = createIconImage "info" q) := by
  refine ⟨?_, ?_, ?_⟩
  · intro ht
    have hcol : (iconEntryFor t).color = specColorOf t := by
      simp only [validTypes, List.mem_cons, List.not_mem_nil, or_false] at ht
      rcases ht with rfl | rfl | rfl | rfl <;> decide
    rw [createIconImage_eval t x y hx hy, circlePixel_eq, hcol]
  · intro ht
    simp only [validTypes, List.mem_cons, List.not_mem_nil, or_false] at ht
    rcases ht with rfl | rfl | rfl | rfl <;> decide
  · intro hn q
    have he : iconEntryFor t = iconEntryFor "info" := by
      unfold iconEntryFor
      rw [hn]
      rfl
    unfold createIconImage
    rw [he]

theorem icon_raster_spec_witness :
    (createIconImage "success" (32, 32) =
      if ((32 : Int) - 32) * ((32 : Int) - 32) + ((32 : Int) - 32) * ((32 : Int) - 32) ≤ 28 * 28
      then specColorOf "success" else ⟨0, 0, 0, 0⟩)
    ∧ (specColorOf "success").a = 255
    ∧ createIconImage "bogus" (0, 0) = createIconImage "info" (0, 0) :=
  ⟨(icon_raster_spec "success" 32 32 (by decide) (by decide)).1 (by decide),
   (icon_raster_spec "success" 32 32 (by decide) (by decide)).2.1 (by decide),
   (icon_raster_spec "bogus" 0 0 (by decide) (by decide)).2.2 (by decide) (0, 0)⟩
